import Mathlib

/-! Verification of the jwtvault token core (src/utils/token.rs).

The claims structures, their constructors and accessors, and the four
encode/decode wrapper functions are embedded from the source.  Rust `i64`
is modelled as `Int`; where the source performs `i64` addition that can
overflow (`iat + 86400`), the embedding applies the two's-complement
64-bit reduction `wrap64`, which is the release-mode semantics of Rust
integer overflow (a checked build panics on the same input; either way
the mathematical sum is not produced).  `Vec<u8>` is modelled as
`List Nat` and `u64` as `Nat`.

Parts of the repository that the source file uses but that are not under
src/ (the clock `compute_timestamp_in_seconds`, the `TokenErrors` enum,
and the external jsonwebtoken signing/verification backend) are modelled
from the spec; each such definition carries a doc comment saying so. -/

/-- Two's-complement reduction of an integer into the signed 64-bit
range, the value produced by Rust release-mode `i64` addition when the
mathematical result overflows. -/
def wrap64 (x : Int) : Int := (x + 2 ^ 63) % 2 ^ 64 - 2 ^ 63

/-- The signed 64-bit range of Rust `i64`. -/
def isI64 (x : Int) : Prop := -(2 ^ 63) ≤ x ∧ x < 2 ^ 63

instance (x : Int) : Decidable (isI64 x) :=
  inferInstanceAs (Decidable (-(2 ^ 63) ≤ x ∧ x < 2 ^ 63))

/-- ClientClaims (token.rs lines 10-19): subject bytes, optional opaque
buffer, reference number, and the three temporal fields. -/
structure ClientClaims where
  sub : List Nat
  _buf : Option (List Nat)
  _ref : Nat
  exp : Int
  nbf : Int
  iat : Int
deriving DecidableEq, Repr

/-- ClientClaims::new (token.rs lines 22-42).  The Rust constructor
reads the clock `compute_timestamp_in_seconds()` (repository code not
under src/; modelled from the spec as the explicit `now` argument, the
spec's `current_unix_time_seconds()` collaborator) when `iat` is
omitted; the defaulting order is iat, then exp, then nbf. -/
def ClientClaims.new (sub : List Nat) ( _buf : Option (List Nat)) ( _ref : Nat)
    (exp : Option Int) (nbf : Option Int) (iat : Option Int) (now : Int) : ClientClaims :=
  let iat := match iat with
    | some iat => iat
    | none => now
  let exp := match exp with
    | some exp => exp
    | none => wrap64 (iat + 86400)
  let nbf := match nbf with
    | some nbf => nbf
    | none => iat
  { sub := sub, _buf := _buf, _ref := _ref, exp := exp, nbf := nbf, iat := iat }

/-- Accessor buffer() (token.rs lines 55-57): returns the optional buffer. -/
def ClientClaims.buffer (c : ClientClaims) : Option (List Nat) := c._buf

/-- Accessor reference() (token.rs lines 58-60). -/
def ClientClaims.reference (c : ClientClaims) : Nat := c._ref

/-- ServerClaims (token.rs lines 90-100): like ClientClaims but with two
optional opaque identifiers instead of one buffer. -/
structure ServerClaims where
  sub : List Nat
  _client : Option (List Nat)
  _server : Option (List Nat)
  _ref : Nat
  exp : Int
  nbf : Int
  iat : Int
deriving DecidableEq, Repr

/-- ServerClaims::new (token.rs lines 103-123); same temporal defaulting
as ClientClaims::new, with the clock modelled as `now`. -/
def ServerClaims.new (sub : List Nat) ( _client : Option (List Nat)) ( _server : Option (List Nat))
    ( _ref : Nat) (exp : Option Int) (nbf : Option Int) (iat : Option Int) (now : Int) : ServerClaims :=
  let iat := match iat with
    | some iat => iat
    | none => now
  let exp := match exp with
    | some exp => exp
    | none => wrap64 (iat + 86400)
  let nbf := match nbf with
    | some nbf => nbf
    | none => iat
  { sub := sub, _client := _client, _server := _server, _ref := _ref,
    exp := exp, nbf := nbf, iat := iat }

/-- Accessor client() (token.rs lines 136-138). -/
def ServerClaims.client (s : ServerClaims) : Option (List Nat) := s._client

/-- Accessor server() (token.rs lines 139-141). -/
def ServerClaims.server (s : ServerClaims) : Option (List Nat) := s._server

/-- Accessor reference() (token.rs lines 142-144). -/
def ServerClaims.reference (s : ServerClaims) : Nat := s._ref

/-- Modelled from the spec: PrivateKey (crate::api::certificates, not
under src/) is "an opaque handle usable by the signing routine to
produce an RS256 signature".  `keyId` identifies the underlying key
pair; `valid` records whether the handle holds parseable RSA material
(the spec's "Malformed key rejection" property requires that encoding
with an invalid key fail). -/
structure PrivateKey where
  keyId : Nat
  valid : Bool
deriving DecidableEq, Repr

/-- Modelled from the spec: PublicKey (crate::api::certificates, not
under src/), "an opaque handle usable by the verification routine";
`keyId` identifies the key pair it belongs to. -/
structure PublicKey where
  keyId : Nat
deriving DecidableEq, Repr

/-- Modelled from the spec: the TokenErrors enum (crate::errors, not
under src/), a sum with two variants each carrying a fixed context
string and the wrapped backend diagnostic string. -/
inductive TokenError where
  | TokenEncodingFailed (context : String) (detail : String)
  | TokenDecodingFailed (context : String) (detail : String)
deriving DecidableEq, Repr

/-- Modelled from the spec: a signed compact client token.  The
base64url/JSON serialization is bijective on the claims, so the token is
modelled as the claims it carries plus the identity of the key that
signed it (the RSA signature binds exactly these). -/
structure ClientToken where
  claims : ClientClaims
  signerKeyId : Nat
deriving DecidableEq, Repr

/-- Modelled from the spec: a signed compact server token. -/
structure ServerToken where
  claims : ServerClaims
  signerKeyId : Nat
deriving DecidableEq, Repr

/-- Modelled from the spec: jsonwebtoken::encode for the client shape
(external crate).  Serializes the claims and signs them with the RSA
private key; fails with the backend diagnostic when the key material is
invalid, otherwise yields the signed token. -/
def jwt_encode_client (priv : PrivateKey) (claims : ClientClaims) : Except String ClientToken :=
  if priv.valid then Except.ok { claims := claims, signerKeyId := priv.keyId }
  else Except.error "InvalidRsaKey"

/-- Modelled from the spec: jsonwebtoken::decode for the client shape
(external crate), parameterized by the RS256 validation policy.  It
verifies the signature against the public key, then validates the
temporal claims against the current time: reject if now < not_before,
reject if now >= expiry. -/
def jwt_decode_client (pub : PublicKey) (token : ClientToken) (now : Int) : Except String ClientClaims :=
  if pub.keyId = token.signerKeyId then
    if now < token.claims.nbf then Except.error "ImmatureSignature"
    else if token.claims.exp ≤ now then Except.error "ExpiredSignature"
    else Except.ok token.claims
  else Except.error "InvalidSignature"

/-- Modelled from the spec: jsonwebtoken::encode for the server shape. -/
def jwt_encode_server (priv : PrivateKey) (claims : ServerClaims) : Except String ServerToken :=
  if priv.valid then Except.ok { claims := claims, signerKeyId := priv.keyId }
  else Except.error "InvalidRsaKey"

/-- Modelled from the spec: jsonwebtoken::decode for the server shape. -/
def jwt_decode_server (pub : PublicKey) (token : ServerToken) (now : Int) : Except String ServerClaims :=
  if pub.keyId = token.signerKeyId then
    if now < token.claims.nbf then Except.error "ImmatureSignature"
    else if token.claims.exp ≤ now then Except.error "ExpiredSignature"
    else Except.ok token.claims
  else Except.error "InvalidSignature"

/-- encode_client_token (token.rs lines 63-73): builds the claims via
ClientClaims::new and signs them; on backend failure wraps the
diagnostic in TokenEncodingFailed with the fixed context string
"Unable to decode token" (sic, verbatim from line 69 of the source). -/
def encode_client_token (priv : PrivateKey) (user_id : List Nat) ( _buf : Option (List Nat))
    ( _ref : Nat) (exp : Option Int) (nbf : Option Int) (iat : Option Int) (now : Int) :
    Except TokenError ClientToken :=
  let claims := ClientClaims.new user_id _buf _ref exp nbf iat now
  match jwt_encode_client priv claims with
  | Except.error msg => Except.error (TokenError.TokenEncodingFailed "Unable to decode token" msg)
  | Except.ok token => Except.ok token

/-- decode_client_token (token.rs lines 75-86): verifies and
deserializes; on backend failure wraps the diagnostic in
TokenDecodingFailed with the fixed context "Unable to decode token". -/
def decode_client_token (pub : PublicKey) (token : ClientToken) (now : Int) :
    Except TokenError ClientClaims :=
  match jwt_decode_client pub token now with
  | Except.error msg => Except.error (TokenError.TokenDecodingFailed "Unable to decode token" msg)
  | Except.ok claims => Except.ok claims

/-- encode_server_token (token.rs lines 147-158): like the client
variant, but its fixed context string is "Unable to encode token"
(line 154 of the source). -/
def encode_server_token (priv : PrivateKey) (user_id : List Nat) ( _client : Option (List Nat))
    ( _server : Option (List Nat)) ( _ref : Nat) (exp : Option Int) (nbf : Option Int)
    (iat : Option Int) (now : Int) : Except TokenError ServerToken :=
  let claims := ServerClaims.new user_id _client _server _ref exp nbf iat now
  match jwt_encode_server priv claims with
  | Except.error msg => Except.error (TokenError.TokenEncodingFailed "Unable to encode token" msg)
  | Except.ok token => Except.ok token

/-- decode_server_token (token.rs lines 160-171). -/
def decode_server_token (pub : PublicKey) (token : ServerToken) (now : Int) :
    Except TokenError ServerClaims :=
  match jwt_decode_server pub token now with
  | Except.error msg => Except.error (TokenError.TokenDecodingFailed "Unable to decode token" msg)
  | Except.ok claims => Except.ok claims

/-- C1: the claim as stated is false on the code.  With the explicit
issued-at override 2^63 - 1 (the largest `i64`) and the expiry override
omitted, the constructor computes the `i64` sum iat + 86400, which
overflows: the stored expiry is the two's-complement wrap of the sum,
not iat + 86400 itself. -/
theorem C1_claim_counterexample :
    ¬ ((ClientClaims.new [] none 0 none none (some (2 ^ 63 - 1)) 0).exp
        = 2 ^ 63 - 1 + 86400) := by
  decide

/-- C1 (amended): for every construction of ClientClaims or
ServerClaims, letting iat be the explicit issued-at override if supplied
and the clock reading otherwise: if the expiry override is omitted the
resulting expiry equals the two's-complement 64-bit reduction of
iat + 86400 (equal to iat + 86400 exactly whenever that sum stays in
`i64` range), and if the not-before override is omitted the resulting
not_before equals iat exactly. -/
theorem C1_default_laws (sub : List Nat) (buf cbuf sbuf : Option (List Nat))
    (r : Nat) (expO nbfO iatO : Option Int) (now : Int) :
    ((ClientClaims.new sub buf r none nbfO iatO now).exp = wrap64 (iatO.getD now + 86400)
      ∧ (ClientClaims.new sub buf r expO none iatO now).nbf = iatO.getD now)
    ∧ ((ServerClaims.new sub cbuf sbuf r none nbfO iatO now).exp = wrap64 (iatO.getD now + 86400)
      ∧ (ServerClaims.new sub cbuf sbuf r expO none iatO now).nbf = iatO.getD now) := by
  cases iatO <;> cases nbfO <;> cases expO <;>
    simp [ClientClaims.new, ServerClaims.new]

/-- C6: every explicitly supplied timestamp override is stored exactly
as given, defaulting touches only the omitted fields, and the concrete
instance of the spec holds: iat = 1000 supplied with expiry omitted
yields expiry 87400, for every clock value. -/
theorem C6_override_passthrough (sub : List Nat) (buf cbuf sbuf : Option (List Nat))
    (r : Nat) (expO nbfO iatO : Option Int) (e n i now : Int) :
    ((ClientClaims.new sub buf r (some e) nbfO iatO now).exp = e
      ∧ (ClientClaims.new sub buf r expO (some n) iatO now).nbf = n
      ∧ (ClientClaims.new sub buf r expO nbfO (some i) now).iat = i
      ∧ (ClientClaims.new sub buf r none nbfO (some 1000) now).exp = 87400)
    ∧ ((ServerClaims.new sub cbuf sbuf r (some e) nbfO iatO now).exp = e
      ∧ (ServerClaims.new sub cbuf sbuf r expO (some n) iatO now).nbf = n
      ∧ (ServerClaims.new sub cbuf sbuf r expO nbfO (some i) now).iat = i
      ∧ (ServerClaims.new sub cbuf sbuf r none nbfO (some 1000) now).exp = 87400) := by
  have hw : wrap64 (1000 + 86400) = 87400 := by decide
  have hw2 : wrap64 87400 = 87400 := by decide
  cases iatO <;> cases nbfO <;> cases expO <;>
    simp [ClientClaims.new, ServerClaims.new, hw, hw2]

/-- C9: ClientClaims::new and ServerClaims::new compute identical
temporal triples (iat, nbf, exp) on the same timestamp overrides and the
same clock reading, whatever the payload inputs of each. -/
theorem C9_shared_temporal_defaulting (sub sub2 : List Nat) (buf cbuf sbuf : Option (List Nat))
    (r r2 : Nat) (expO nbfO iatO : Option Int) (now : Int) :
    (ClientClaims.new sub buf r expO nbfO iatO now).iat
        = (ServerClaims.new sub2 cbuf sbuf r2 expO nbfO iatO now).iat
    ∧ (ClientClaims.new sub buf r expO nbfO iatO now).nbf
        = (ServerClaims.new sub2 cbuf sbuf r2 expO nbfO iatO now).nbf
    ∧ (ClientClaims.new sub buf r expO nbfO iatO now).exp
        = (ServerClaims.new sub2 cbuf sbuf r2 expO nbfO iatO now).exp := by
  cases iatO <;> cases nbfO <;> cases expO <;>
    simp [ClientClaims.new, ServerClaims.new]

/-- C10: every public accessor of a freshly constructed claims value
returns exactly the field fixed at construction: the subject bytes, the
optional payloads as supplied (Some when supplied, None otherwise), the
reference number, and the three timestamps the constructor computed. -/
theorem C10_accessor_passthrough (sub sub2 : List Nat) (buf cbuf sbuf : Option (List Nat))
    (r r2 : Nat) (expO nbfO iatO : Option Int) (now : Int) :
    ((ClientClaims.new sub buf r expO nbfO iatO now).sub = sub
      ∧ (ClientClaims.new sub buf r expO nbfO iatO now).buffer = buf
      ∧ (ClientClaims.new sub buf r expO nbfO iatO now).reference = r
      ∧ (ClientClaims.new sub buf r expO nbfO iatO now).iat = iatO.getD now
      ∧ (ClientClaims.new sub buf r expO nbfO iatO now).nbf = nbfO.getD (iatO.getD now)
      ∧ (ClientClaims.new sub buf r expO nbfO iatO now).exp
          = expO.getD (wrap64 (iatO.getD now + 86400)))
    ∧ ((ServerClaims.new sub2 cbuf sbuf r2 expO nbfO iatO now).sub = sub2
      ∧ (ServerClaims.new sub2 cbuf sbuf r2 expO nbfO iatO now).client = cbuf
      ∧ (ServerClaims.new sub2 cbuf sbuf r2 expO nbfO iatO now).server = sbuf
      ∧ (ServerClaims.new sub2 cbuf sbuf r2 expO nbfO iatO now).reference = r2
      ∧ (ServerClaims.new sub2 cbuf sbuf r2 expO nbfO iatO now).iat = iatO.getD now
      ∧ (ServerClaims.new sub2 cbuf sbuf r2 expO nbfO iatO now).nbf = nbfO.getD (iatO.getD now)
      ∧ (ServerClaims.new sub2 cbuf sbuf r2 expO nbfO iatO now).exp
          = expO.getD (wrap64 (iatO.getD now + 86400))) := by
  cases iatO <;> cases nbfO <;> cases expO <;>
    simp [ClientClaims.new, ServerClaims.new, ClientClaims.buffer, ClientClaims.reference,
      ServerClaims.client, ServerClaims.server, ServerClaims.reference]

/-- Two's-complement reduction always lands in the signed 64-bit range. -/
theorem wrap64_isI64 (x : Int) : isI64 (wrap64 x) := by
  have e1 : (2 : Int) ^ 64 = 18446744073709551616 := by norm_num
  have e2 : (2 : Int) ^ 63 = 9223372036854775808 := by norm_num
  have h1 := Int.emod_nonneg (x + 2 ^ 63) (by norm_num : (2 : Int) ^ 64 ≠ 0)
  have h2 := Int.emod_lt_of_pos (x + 2 ^ 63) (by norm_num : (0 : Int) < 2 ^ 64)
  unfold isI64 wrap64
  omega

/-- C8: construction is total.  For every input, including extreme `i64`
timestamp overrides, each constructor returns the fully populated record
below, with no error path; moreover, whenever the supplied overrides and
the clock reading are in `i64` range, every resulting temporal field is
again in `i64` range. -/
theorem C8_total_construction (sub sub2 : List Nat) (buf cbuf sbuf : Option (List Nat))
    (r r2 : Nat) (expO nbfO iatO : Option Int) (now : Int)
    (he : ∀ x, expO = some x → isI64 x) (hn : ∀ x, nbfO = some x → isI64 x)
    (hi : ∀ x, iatO = some x → isI64 x) (hnow : isI64 now) :
    (ClientClaims.new sub buf r expO nbfO iatO now
        = { sub := sub, _buf := buf, _ref := r,
            exp := expO.getD (wrap64 (iatO.getD now + 86400)),
            nbf := nbfO.getD (iatO.getD now), iat := iatO.getD now }
      ∧ isI64 (ClientClaims.new sub buf r expO nbfO iatO now).iat
      ∧ isI64 (ClientClaims.new sub buf r expO nbfO iatO now).nbf
      ∧ isI64 (ClientClaims.new sub buf r expO nbfO iatO now).exp)
    ∧ (ServerClaims.new sub2 cbuf sbuf r2 expO nbfO iatO now
        = { sub := sub2, _client := cbuf, _server := sbuf, _ref := r2,
            exp := expO.getD (wrap64 (iatO.getD now + 86400)),
            nbf := nbfO.getD (iatO.getD now), iat := iatO.getD now }
      ∧ isI64 (ServerClaims.new sub2 cbuf sbuf r2 expO nbfO iatO now).iat
      ∧ isI64 (ServerClaims.new sub2 cbuf sbuf r2 expO nbfO iatO now).nbf
      ∧ isI64 (ServerClaims.new sub2 cbuf sbuf r2 expO nbfO iatO now).exp) := by
  have hiat : isI64 (iatO.getD now) := by
    cases iatO with
    | none => exact hnow
    | some x => exact hi x rfl
  have hnbf : isI64 (nbfO.getD (iatO.getD now)) := by
    cases nbfO with
    | none => exact hiat
    | some x => exact hn x rfl
  have hexp : isI64 (expO.getD (wrap64 (iatO.getD now + 86400))) := by
    cases expO with
    | none => exact wrap64_isI64 _
    | some x => exact he x rfl
  refine ⟨⟨?_, ?_, ?_, ?_⟩, ⟨?_, ?_, ?_, ?_⟩⟩ <;>
    cases iatO <;> cases nbfO <;> cases expO <;>
      simp_all [ClientClaims.new, ServerClaims.new]

/-- C8 witness: the largest `i64` as the issued-at override still yields
a fully populated claims value, its expiry wrapped into range. -/
theorem C8_total_construction_witness :
    isI64 (2 ^ 63 - 1) ∧ isI64 0
    ∧ ((ClientClaims.new [7] none 1 none none (some (2 ^ 63 - 1)) 0
          = { sub := [7], _buf := none, _ref := 1,
              exp := wrap64 (2 ^ 63 - 1 + 86400),
              nbf := 2 ^ 63 - 1, iat := 2 ^ 63 - 1 }
        ∧ isI64 (ClientClaims.new [7] none 1 none none (some (2 ^ 63 - 1)) 0).iat
        ∧ isI64 (ClientClaims.new [7] none 1 none none (some (2 ^ 63 - 1)) 0).nbf
        ∧ isI64 (ClientClaims.new [7] none 1 none none (some (2 ^ 63 - 1)) 0).exp)
      ∧ (ServerClaims.new [8] (some [1]) none 2 none none (some (2 ^ 63 - 1)) 0
          = { sub := [8], _client := some [1], _server := none, _ref := 2,
              exp := wrap64 (2 ^ 63 - 1 + 86400),
              nbf := 2 ^ 63 - 1, iat := 2 ^ 63 - 1 }
        ∧ isI64 (ServerClaims.new [8] (some [1]) none 2 none none (some (2 ^ 63 - 1)) 0).iat
        ∧ isI64 (ServerClaims.new [8] (some [1]) none 2 none none (some (2 ^ 63 - 1)) 0).nbf
        ∧ isI64 (ServerClaims.new [8] (some [1]) none 2 none none (some (2 ^ 63 - 1)) 0).exp)) :=
  ⟨by decide, by decide,
    C8_total_construction [7] [8] none (some [1]) none 1 2 none none (some (2 ^ 63 - 1)) 0
      (fun x h => nomatch h) (fun x h => nomatch h)
      (fun x h => by cases h; decide) (by decide)⟩

/-- C2: encoding a claims value with a valid private key and decoding
with the matching public key, at a verification time inside the validity
window of the claims, succeeds and reproduces the encoded claims
exactly, for both shapes. -/
theorem C2_round_trip (priv : PrivateKey) (pub : PublicKey) (sub sub2 : List Nat)
    (buf cbuf sbuf : Option (List Nat)) (r r2 : Nat) (expO nbfO iatO : Option Int)
    (nowE nowD : Int)
    (hvalid : priv.valid = true) (hmatch : pub.keyId = priv.keyId)
    (hcn : (ClientClaims.new sub buf r expO nbfO iatO nowE).nbf ≤ nowD)
    (hce : nowD < (ClientClaims.new sub buf r expO nbfO iatO nowE).exp)
    (hsn : (ServerClaims.new sub2 cbuf sbuf r2 expO nbfO iatO nowE).nbf ≤ nowD)
    (hse : nowD < (ServerClaims.new sub2 cbuf sbuf r2 expO nbfO iatO nowE).exp) :
    (∃ tok, encode_client_token priv sub buf r expO nbfO iatO nowE = Except.ok tok
      ∧ decode_client_token pub tok nowD
          = Except.ok (ClientClaims.new sub buf r expO nbfO iatO nowE))
    ∧ (∃ tok, encode_server_token priv sub2 cbuf sbuf r2 expO nbfO iatO nowE = Except.ok tok
      ∧ decode_server_token pub tok nowD
          = Except.ok (ServerClaims.new sub2 cbuf sbuf r2 expO nbfO iatO nowE)) := by
  constructor
  · refine ⟨{ claims := ClientClaims.new sub buf r expO nbfO iatO nowE,
              signerKeyId := priv.keyId }, ?_, ?_⟩
    · simp [encode_client_token, jwt_encode_client, hvalid]
    · simp [decode_client_token, jwt_decode_client, hmatch, not_lt.mpr hcn, not_le.mpr hce]
  · refine ⟨{ claims := ServerClaims.new sub2 cbuf sbuf r2 expO nbfO iatO nowE,
              signerKeyId := priv.keyId }, ?_, ?_⟩
    · simp [encode_server_token, jwt_encode_server, hvalid]
    · simp [decode_server_token, jwt_decode_server, hmatch, not_lt.mpr hsn, not_le.mpr hse]

/-- C2 witness: a concrete round trip with key pair 1, claims issued at
time 0 with expiry 100, decoded at time 50. -/
theorem C2_round_trip_witness :
    (∃ tok, encode_client_token ⟨1, true⟩ [1] none 0 (some 100) (some 0) (some 0) 0
        = Except.ok tok
      ∧ decode_client_token ⟨1⟩ tok 50
          = Except.ok (ClientClaims.new [1] none 0 (some 100) (some 0) (some 0) 0))
    ∧ (∃ tok, encode_server_token ⟨1, true⟩ [2] none none 0 (some 100) (some 0) (some 0) 0
        = Except.ok tok
      ∧ decode_server_token ⟨1⟩ tok 50
          = Except.ok (ServerClaims.new [2] none none 0 (some 100) (some 0) (some 0) 0)) :=
  C2_round_trip ⟨1, true⟩ ⟨1⟩ [1] [2] none none none 0 0 (some 100) (some 0) (some 0) 0 50
    rfl rfl (by decide) (by decide) (by decide) (by decide)

/-- C3: any token whose not_before lies in the future of the
verification time is rejected by the decode wrappers with a
TokenDecodingFailed error, never returned as claims. -/
theorem C3_not_before_rejection (pub : PublicKey) (ct : ClientToken) (st : ServerToken)
    (now : Int) (hc : now < ct.claims.nbf) (hs : now < st.claims.nbf) :
    (∃ d, decode_client_token pub ct now
        = Except.error (TokenError.TokenDecodingFailed "Unable to decode token" d))
    ∧ (∃ d, decode_server_token pub st now
        = Except.error (TokenError.TokenDecodingFailed "Unable to decode token" d)) := by
  constructor
  · by_cases h : pub.keyId = ct.signerKeyId
    · exact ⟨"ImmatureSignature", by simp [decode_client_token, jwt_decode_client, h, hc]⟩
    · exact ⟨"InvalidSignature", by simp [decode_client_token, jwt_decode_client, h]⟩
  · by_cases h : pub.keyId = st.signerKeyId
    · exact ⟨"ImmatureSignature", by simp [decode_server_token, jwt_decode_server, h, hs]⟩
    · exact ⟨"InvalidSignature", by simp [decode_server_token, jwt_decode_server, h]⟩

/-- C3 witness: tokens not valid before time 50, decoded at time 10. -/
theorem C3_not_before_rejection_witness :
    (∃ d, decode_client_token ⟨0⟩
        ⟨ClientClaims.new [] none 0 (some 100) (some 50) (some 0) 0, 0⟩ 10
        = Except.error (TokenError.TokenDecodingFailed "Unable to decode token" d))
    ∧ (∃ d, decode_server_token ⟨0⟩
        ⟨ServerClaims.new [] none none 0 (some 100) (some 50) (some 0) 0, 0⟩ 10
        = Except.error (TokenError.TokenDecodingFailed "Unable to decode token" d)) :=
  C3_not_before_rejection ⟨0⟩
    ⟨ClientClaims.new [] none 0 (some 100) (some 50) (some 0) 0, 0⟩
    ⟨ServerClaims.new [] none none 0 (some 100) (some 50) (some 0) 0, 0⟩ 10
    (by decide) (by decide)

/-- C4: any token whose expiry is at or before the verification time is
rejected by the decode wrappers with a TokenDecodingFailed error. -/
theorem C4_expiry_rejection (pub : PublicKey) (ct : ClientToken) (st : ServerToken)
    (now : Int) (hc : ct.claims.exp ≤ now) (hs : st.claims.exp ≤ now) :
    (∃ d, decode_client_token pub ct now
        = Except.error (TokenError.TokenDecodingFailed "Unable to decode token" d))
    ∧ (∃ d, decode_server_token pub st now
        = Except.error (TokenError.TokenDecodingFailed "Unable to decode token" d)) := by
  constructor
  · by_cases h : pub.keyId = ct.signerKeyId
    · by_cases h2 : now < ct.claims.nbf
      · exact ⟨"ImmatureSignature", by simp [decode_client_token, jwt_decode_client, h, h2]⟩
      · exact ⟨"ExpiredSignature", by simp [decode_client_token, jwt_decode_client, h, h2, hc]⟩
    · exact ⟨"InvalidSignature", by simp [decode_client_token, jwt_decode_client, h]⟩
  · by_cases h : pub.keyId = st.signerKeyId
    · by_cases h2 : now < st.claims.nbf
      · exact ⟨"ImmatureSignature", by simp [decode_server_token, jwt_decode_server, h, h2]⟩
      · exact ⟨"ExpiredSignature", by simp [decode_server_token, jwt_decode_server, h, h2, hs]⟩
    · exact ⟨"InvalidSignature", by simp [decode_server_token, jwt_decode_server, h]⟩

/-- C4 witness: tokens that expired at time 5, decoded at time 10. -/
theorem C4_expiry_rejection_witness :
    (∃ d, decode_client_token ⟨0⟩
        ⟨ClientClaims.new [] none 0 (some 5) (some 0) (some 0) 0, 0⟩ 10
        = Except.error (TokenError.TokenDecodingFailed "Unable to decode token" d))
    ∧ (∃ d, decode_server_token ⟨0⟩
        ⟨ServerClaims.new [] none none 0 (some 5) (some 0) (some 0) 0, 0⟩ 10
        = Except.error (TokenError.TokenDecodingFailed "Unable to decode token" d)) :=
  C4_expiry_rejection ⟨0⟩
    ⟨ClientClaims.new [] none 0 (some 5) (some 0) (some 0) 0, 0⟩
    ⟨ServerClaims.new [] none none 0 (some 5) (some 0) (some 0) 0, 0⟩ 10
    (by decide) (by decide)

/-- C5: evaluating the encode wrappers at a failing input (an invalid
private key).  Both wrap the backend diagnostic in TokenEncodingFailed,
but the fixed context string of encode_client_token is
"Unable to decode token" — it names the decode operation, not the
encode operation, contradicting the claim; encode_server_token carries
the correct "Unable to encode token". -/
theorem C5_encode_context_strings :
    encode_client_token ⟨1, false⟩ [] none 0 none none (some 0) 0
      = Except.error (TokenError.TokenEncodingFailed "Unable to decode token" "InvalidRsaKey")
    ∧ encode_server_token ⟨1, false⟩ [] none none 0 none none (some 0) 0
      = Except.error (TokenError.TokenEncodingFailed "Unable to encode token" "InvalidRsaKey") := by
  constructor <;> rfl

/-- C7: a token signed by a valid private key, decoded with a public key
of a different key pair, is rejected by the decode wrappers with a
TokenDecodingFailed error, never returned as claims. -/
theorem C7_signature_rejection (priv : PrivateKey) (pub : PublicKey) (sub sub2 : List Nat)
    (buf cbuf sbuf : Option (List Nat)) (r r2 : Nat) (expO nbfO iatO : Option Int)
    (nowE nowD : Int) (hvalid : priv.valid = true) (hkey : pub.keyId ≠ priv.keyId) :
    (∃ tok d, encode_client_token priv sub buf r expO nbfO iatO nowE = Except.ok tok
      ∧ decode_client_token pub tok nowD
          = Except.error (TokenError.TokenDecodingFailed "Unable to decode token" d))
    ∧ (∃ tok d, encode_server_token priv sub2 cbuf sbuf r2 expO nbfO iatO nowE = Except.ok tok
      ∧ decode_server_token pub tok nowD
          = Except.error (TokenError.TokenDecodingFailed "Unable to decode token" d)) := by
  constructor
  · refine ⟨{ claims := ClientClaims.new sub buf r expO nbfO iatO nowE,
              signerKeyId := priv.keyId }, "InvalidSignature", ?_, ?_⟩
    · simp [encode_client_token, jwt_encode_client, hvalid]
    · simp [decode_client_token, jwt_decode_client, hkey]
  · refine ⟨{ claims := ServerClaims.new sub2 cbuf sbuf r2 expO nbfO iatO nowE,
              signerKeyId := priv.keyId }, "InvalidSignature", ?_, ?_⟩
    · simp [encode_server_token, jwt_encode_server, hvalid]
    · simp [decode_server_token, jwt_decode_server, hkey]

/-- C7 witness: a token signed by key pair 1 and decoded with the public
key of pair 2 at a time inside the validity window is still rejected. -/
theorem C7_signature_rejection_witness :
    (∃ tok d, encode_client_token ⟨1, true⟩ [1] none 0 (some 100) (some 0) (some 0) 0
        = Except.ok tok
      ∧ decode_client_token ⟨2⟩ tok 50
          = Except.error (TokenError.TokenDecodingFailed "Unable to decode token" d))
    ∧ (∃ tok d, encode_server_token ⟨1, true⟩ [2] none none 0 (some 100) (some 0) (some 0) 0
        = Except.ok tok
      ∧ decode_server_token ⟨2⟩ tok 50
          = Except.error (TokenError.TokenDecodingFailed "Unable to decode token" d)) :=
  C7_signature_rejection ⟨1, true⟩ ⟨2⟩ [1] [2] none none none 0 0
    (some 100) (some 0) (some 0) 0 50 rfl (by decide)
